import Mathlib

/-!
Shallow embedding of the source-package acquisition and build orchestration
engine of the fedora-system repository (src/pypi_installer.py,
src/misc/pypi_installer.py, src/install_python_from_source_v2.py,
src/misc/fedora_src_installer.py), together with theorems settling the
frozen claims about it.

Conventions of the embedding:
* A Python `subprocess.run(..., capture_output=True)` result is a `Subproc`
  record (return code plus captured stdout/stderr text).
* Outcomes of external effects (network fetch, git clone, pip/dnf/rpmbuild
  invocations, filesystem layout of the fetched tree) are oracle parameters
  packaged in small environment structures; the control flow operating on
  those outcomes is translated line by line from the Python source.
* A Python exception is a `PyExc` value; `try/except` and `try/finally`
  become explicit `Except` matching, with the `finally` action applied on
  both arms.
-/

namespace FedoraSystem

/-! ## Generic string containment (Python `in` on str) -/

/-- `needle` occurs as a leading segment of `hay` (character lists). -/
def isPrefixOfChars : List Char → List Char → Bool
  | [], _ => true
  | _ :: _, [] => false
  | a :: as, b :: bs => a = b && isPrefixOfChars as bs

/-- `needle` occurs contiguously somewhere in `hay`; Python `needle in hay`. -/
def containsSub (needle : List Char) : List Char → Bool
  | [] => isPrefixOfChars needle []
  | c :: t => isPrefixOfChars needle (c :: t) || containsSub needle t

/-- Python `needle in hay` on strings. -/
def strContains (hay needle : String) : Bool :=
  containsSub needle.toList hay.toList

theorem isPrefixOfChars_refl (l : List Char) : isPrefixOfChars l l = true := by
  induction l with
  | nil => rfl
  | cons a as ih => simp [isPrefixOfChars, ih]

theorem isPrefixOfChars_append (l rest : List Char) :
    isPrefixOfChars l (l ++ rest) = true := by
  induction l with
  | nil => rfl
  | cons a as ih => simp [isPrefixOfChars, ih]

theorem containsSub_append_left (needle rest : List Char) :
    containsSub needle (needle ++ rest) = true := by
  cases needle with
  | nil => cases rest <;> simp [containsSub, isPrefixOfChars]
  | cons a as =>
    have h := isPrefixOfChars_append (a :: as) rest
    simp only [containsSub, List.cons_append, Bool.or_eq_true]
    exact Or.inl h

theorem containsSub_of_suffix (pre needle : List Char) :
    containsSub needle (pre ++ needle) = true := by
  induction pre with
  | nil =>
    have h := containsSub_append_left needle []
    simpa using h
  | cons c t ih =>
    cases h : isPrefixOfChars needle (c :: (t ++ needle)) <;>
      simp [containsSub, h, ih]

/-- A string always contains its own trailing segment:
`strContains (pre ++ s) s` holds. -/
theorem strContains_append_right (pre s : String) :
    strContains (pre ++ s) s = true := by
  unfold strContains
  have h : (pre ++ s).toList = pre.toList ++ s.toList := by
    simp [String.toList, String.data_append]
  rw [h]
  exact containsSub_of_suffix pre.toList s.toList

/-! ## Subprocess results and Python exceptions -/

/-- Result of `subprocess.run(cmd, capture_output=True, text=True)`. -/
structure Subproc where
  returncode : Int
  stdoutStr : String
  stderrStr : String
deriving DecidableEq, Repr

/-- Python exceptions relevant to the control flow under study. -/
inductive PyExc
  | exception (msg : String)
  | systemExit (code : Nat)
  | keyboardInterrupt
deriving DecidableEq, Repr

/-! ## C8 — Source Locator: distribution selection in download_source
(src/pypi_installer.py lines 235-267) -/

/-- One element of the registry metadata `urls` array
(external interface: objects with packagetype, url, filename). -/
structure UrlInfo where
  packagetype : Option String
  url : String
  filename : String
deriving DecidableEq, Repr

def isSdistInfo (u : UrlInfo) : Bool :=
  u.packagetype = some "sdist"

def isBdistInfo (u : UrlInfo) : Bool :=
  u.packagetype = some "bdist_wheel" || u.packagetype = some "bdist_egg"

/-- download_source selection logic (lines 237-257): first `sdist` entry,
else first `bdist_wheel`/`bdist_egg` entry, else none
("No suitable distribution found"). Returns (url, filename). -/
def download_source_select (urls : List UrlInfo) : Option (String × String) :=
  match urls.find? isSdistInfo with
  | some u => some (u.url, u.filename)
  | none =>
    match urls.find? isBdistInfo with
    | some u => some (u.url, u.filename)
    | none => none

/-! ## C2 — Artifact Fetcher: source-root resolution after extraction -/

/-- A top-level entry of the extraction directory. -/
structure Entry where
  name : String
  isDir : Bool
deriving DecidableEq, Repr

/-- extract_source resolution (src/pypi_installer.py lines 287-292):
`os.listdir`, then the unique entry if there is exactly one (with no check
that it is a directory), else the extraction root. -/
def resolve_source_root (extractDir : String) (entries : List Entry) : String :=
  match entries with
  | [e] => extractDir ++ "/" ++ e.name
  | _ => extractDir

/-- Resolution as the spec words it (§4.2): the unique entry only when it is
a directory, else the extraction root. Stated for refinement comparison. -/
def resolve_source_root_specWords (extractDir : String) (entries : List Entry) : String :=
  match entries with
  | [e] => if e.isDir then extractDir ++ "/" ++ e.name else extractDir
  | _ => extractDir

/-- Python `max(iterable, key=len-of-name)`: first entry of maximal name
length (later entries replace only on strictly greater length). -/
def v2_pick (d : Entry) (ds : List Entry) : Entry :=
  ds.foldl (fun best e => if best.name.length < e.name.length then e else best) d

/-- install_python_from_source_v2.py lines 98-105: keep only directories
among the top-level entries; fail (sys.exit) if none; else take the
longest-named one. -/
def v2_resolve (buildDir : String) (entries : List Entry) : Option String :=
  match entries.filter (fun e => e.isDir) with
  | [] => none
  | d :: ds => some (buildDir ++ "/" ++ (v2_pick d ds).name)

/-! ## C3 — parse_source_line (src/pypi_installer.py lines 483-529),
CLI ref validation (main, lines 649-659) and clone command construction
(clone_git_repository, lines 133-153) -/

/-- One parsed manifest line. -/
inductive ParsedLine
  | skip
  | pypi (pkg : String) (version : Option String)
  | git (url : String) (branch tag commit : Option String)
deriving DecidableEq, Repr

/-- Python `str.strip()` on character lists. -/
def trimChars (l : List Char) : List Char :=
  ((l.dropWhile Char.isWhitespace).reverse.dropWhile Char.isWhitespace).reverse

/-- Python `str.strip()`. -/
def strTrim (s : String) : String := String.mk (trimChars s.toList)

def strIsEmpty (s : String) : Bool := s.toList.isEmpty

/-- Python `s.startswith(p)`. -/
def strStartsWith (s p : String) : Bool := isPrefixOfChars p.toList s.toList

/-- Python `s.endswith(p)`. -/
def strEndsWith (s p : String) : Bool :=
  isPrefixOfChars p.toList.reverse s.toList.reverse

/-- Accumulator step for whitespace splitting. -/
def splitWsAux : List Char → List Char → List String
  | [], acc => if acc.isEmpty then [] else [String.mk acc.reverse]
  | c :: t, acc =>
    if c.isWhitespace then
      if acc.isEmpty then splitWsAux t []
      else String.mk acc.reverse :: splitWsAux t []
    else splitWsAux t (c :: acc)

/-- Python `s.split()` with no argument: split on whitespace runs,
discarding empty pieces. -/
def splitWhitespace (s : String) : List String := splitWsAux s.toList []

/-- Split at the first occurrence of a two-character `==` separator:
Python `line.split(sep, 1)` when the separator occurs, `none` otherwise.
`isSome` of the result is Python `sep in line` for this separator. -/
def splitFirstEqEq : List Char → Option (List Char × List Char)
  | [] => none
  | [_] => none
  | a :: b :: t =>
    if a = '=' && b = '=' then some ([], t)
    else
      match splitFirstEqEq (b :: t) with
      | none => none
      | some (pre, post) => some (a :: pre, post)

/-- Text after the first occurrence of a character. -/
def afterFirstChar (sep : Char) : List Char → Option (List Char)
  | [] => none
  | c :: t => if c = sep then some t else afterFirstChar sep t

/-- Python `part.split(eq-separator, 1)[1]`: the text after the first `=`.
Callers guard on a leading marker that contains `=`. -/
def afterFirstEqSep (part : String) : String :=
  match afterFirstChar '=' part.toList with
  | some rest => String.mk rest
  | none => ""

structure GitRefs where
  branch : Option String
  tag : Option String
  commit : Option String
deriving DecidableEq, Repr

/-- One step of the parameter loop (lines 506-512): later occurrences of the
same marker overwrite, unknown words are ignored. -/
def applyGitParam (acc : GitRefs) (part : String) : GitRefs :=
  if strStartsWith part "--branch=" || strStartsWith part "-b=" then
    { acc with branch := some (afterFirstEqSep part) }
  else if strStartsWith part "--tag=" || strStartsWith part "-t=" then
    { acc with tag := some (afterFirstEqSep part) }
  else if strStartsWith part "--commit=" || strStartsWith part "-c=" then
    { acc with commit := some (afterFirstEqSep part) }
  else acc

/-- Line 492: URL-scheme test plus host/suffix heuristic over the whole
stripped line. -/
def looksLikeGitUrl (l : String) : Bool :=
  (strStartsWith l "http://" || strStartsWith l "https://" ||
   strStartsWith l "git://" || strStartsWith l "ssh://")
  && (strContains l "github.com" || strContains l "gitlab.com" ||
      strContains l ".git")

/-- parse_source_line, translated clause by clause. Note that no clause
rejects a git line carrying several of branch/tag/commit. -/
def parse_source_line (line : String) : ParsedLine :=
  let l := strTrim line
  if strIsEmpty l || strStartsWith l "#" then .skip
  else if looksLikeGitUrl l then
    match splitWhitespace l with
    | [] => .git "" none none none
    | url :: rest =>
      let refs := rest.foldl applyGitParam ⟨none, none, none⟩
      .git url refs.branch refs.tag refs.commit
  else
    match splitFirstEqEq l.toList with
    | some (pre, post) =>
      .pypi (strTrim (String.mk pre)) (some (strTrim (String.mk post)))
    | none => .pypi l none

/-- Python truthiness of an optional string argument (`bool(ref)`). -/
def pyTruthy : Option String → Bool
  | none => false
  | some s => !(strIsEmpty s)

/-- `sum(bool(ref) for ref in [branch, tag, commit])` (line 655). -/
def gitRefCount (b t c : Option String) : Nat :=
  (if pyTruthy b then 1 else 0) + (if pyTruthy t then 1 else 0) +
    (if pyTruthy c then 1 else 0)

/-- `os.path.basename` on a URL path: the text after the last slash. -/
def basenameOf (s : String) : String :=
  String.mk (s.toList.foldl (fun acc c => if c = '/' then [] else acc ++ [c]) [])

/-- parse_git_url (lines 121-131): repository name from the URL, with a
trailing `.git` stripped (Python slice `[:-4]`). -/
def repoNameOf (url : String) : String :=
  if strEndsWith url ".git" then
    let b := (basenameOf url).toList
    String.mk (b.take (b.length - 4))
  else basenameOf url

/-- clone_git_repository command construction (lines 142-149): the clone is
issued unconditionally; a truthy branch adds `--branch` to the command. -/
def gitCloneCmd (url cloneDir : String) (branch : Option String) : List String :=
  ["git", "clone", url, cloneDir] ++
    (if pyTruthy branch then ["--branch", branch.getD ""] else [])

inductive CliResult
  | usageError
  | dispatched (cloneCmd : List String)
deriving DecidableEq, Repr

/-- CLI flow for a `--git` invocation (main lines 649-659, then run →
install_git_package → clone_git_repository): `parser.error` exits before
any installer activity; otherwise the clone command is started. -/
def cli_git_main (tempDir url : String)
    (version branch tag commit : Option String) : CliResult :=
  if pyTruthy version then .usageError
  else if 1 < gitRefCount branch tag commit then .usageError
  else .dispatched (gitCloneCmd url (tempDir ++ "/" ++ repoNameOf url) branch)

/-- First subprocess command the batch driver issues for a parsed manifest
line (install_from_file line 551 → install_git_package line 447 →
clone_git_repository line 149): for every git entry a clone starts, with no
check on how many of branch/tag/commit are set. -/
def first_clone_cmd (tempDir : String) : ParsedLine → Option (List String)
  | .git url b _ _ => some (gitCloneCmd url (tempDir ++ "/" ++ repoNameOf url) b)
  | _ => none

/-! ## C4 — Batch Driver: install_from_file (lines 531-563)

The per-entry work (install_single_package / install_git_package) is an
oracle `proc` returning either a bool result or a raised Exception message;
those callees raise only Exception-level errors (no sys.exit in them), which
the per-line `except Exception` clause catches. -/

/-- `enumerate(lines, 1)`. -/
def numberFrom (n : Nat) : List String → List (Nat × String)
  | [] => []
  | l :: ls => (n, l) :: numberFrom (n + 1) ls

structure BatchResult where
  /-- Dispatch announcements: `Line n: Installing ...` at info level. -/
  infoLogs : List (Nat × String)
  /-- `Error processing line n: e` at error level (line 559). -/
  errorLogs : List (Nat × String)
  /-- Line numbers of entries actually dispatched (non-skip). -/
  dispatched : List Nat
deriving DecidableEq, Repr

def entryKindMsg : ParsedLine → String
  | .pypi p _ => "Installing PyPI package " ++ p
  | .git u _ _ _ => "Installing Git package " ++ u
  | .skip => ""

/-- One iteration of the per-line loop (lines 540-560): parse, skip blanks
and comments, announce and dispatch, catch any raised Exception, continue. -/
def batchStep (proc : Nat → ParsedLine → Except String Bool)
    (acc : BatchResult) (p : Nat × String) : BatchResult :=
  match parse_source_line p.2 with
  | .skip => acc
  | e =>
    let acc1 : BatchResult :=
      { acc with infoLogs := acc.infoLogs ++ [(p.1, entryKindMsg e)],
                 dispatched := acc.dispatched ++ [p.1] }
    match proc p.1 e with
    | .ok _ => acc1
    | .error ex => { acc1 with errorLogs := acc1.errorLogs ++ [(p.1, ex)] }

/-- install_from_file: fold of `batchStep` over the numbered lines. -/
def install_from_file (lines : List String)
    (proc : Nat → ParsedLine → Except String Bool) : BatchResult :=
  (numberFrom 1 lines).foldl (batchStep proc) ⟨[], [], []⟩

/-! ## C5 / C10 — Dependency Installer: install_dependencies
(src/pypi_installer.py lines 298-385) -/

structure DepsStats where
  okInstalls : Nat
  failedInstalls : Nat
deriving DecidableEq, Repr

def addStats (a b : DepsStats) : DepsStats :=
  ⟨a.okInstalls + b.okInstalls, a.failedInstalls + b.failedInstalls⟩

/-- Oracle for the filesystem and pip outcomes install_dependencies sees. -/
structure DepsEnv where
  /-- `os.chdir(source_dir)` succeeds (line 306); failure raises into the
  outer except clause. -/
  chdirOk : Bool
  /-- `os.path.exists` for the three conventional requirement files. -/
  reqFilePresent : String → Bool
  /-- Outcome of `pip install -r` per requirement file. -/
  pipReqOk : String → Bool
  hasPyproject : Bool
  hasSetupPy : Bool
  /-- Reading/parsing pyproject.toml raises (caught by the inner except,
  line 347, as a warning). -/
  pyReadFails : Bool
  /-- Quoted entries the regex extracts from the pyproject dependencies
  list; empty when no list matches. -/
  pyDeps : List String
  setupReadFails : Bool
  setupDeps : List String
  /-- Outcome of `pip install` per individual dependency specifier. -/
  pipDepOk : String → Bool

/-- The fixed requirement-file locations checked in order (line 309). -/
def requirementsFiles : List String :=
  ["requirements.txt", "requirements/base.txt", "requirements/production.txt"]

/-- Step 1 (lines 309-319): per present requirement file, a pip run; a
failure is logged as a warning and the loop continues. -/
def installReqFiles (env : DepsEnv) : DepsStats :=
  requirementsFiles.foldl (fun st f =>
    if env.reqFilePresent f then
      if env.pipReqOk f then { st with okInstalls := st.okInstalls + 1 }
      else { st with failedInstalls := st.failedInstalls + 1 }
    else st) ⟨0, 0⟩

/-- Steps 2/3 dependency loop (lines 337-346, 366-375): strip each
specifier, skip empties, install individually; a failure is logged as a
warning and the loop continues. -/
def installDepList (pipOk : String → Bool) (deps : List String) : DepsStats :=
  deps.foldl (fun st dep =>
    let d := strTrim dep
    if strIsEmpty d then st
    else if pipOk d then { st with okInstalls := st.okInstalls + 1 }
    else { st with failedInstalls := st.failedInstalls + 1 }) ⟨0, 0⟩

/-- The try body of install_dependencies: requirement files, then pyproject
dependencies, else setup.py dependencies. -/
def depsTryBody (env : DepsEnv) : Except String DepsStats :=
  if env.chdirOk = false then .error "chdir raised"
  else
    let s1 := installReqFiles env
    let s2 :=
      if env.hasPyproject then
        if env.pyReadFails then ⟨0, 0⟩
        else installDepList env.pipDepOk env.pyDeps
      else if env.hasSetupPy then
        if env.setupReadFails then ⟨0, 0⟩
        else installDepList env.pipDepOk env.setupDeps
      else ⟨0, 0⟩
    .ok (addStats s1 s2)

/-- install_dependencies: the bool reported to the caller and the working
directory after return. The normal path returns True (line 379), the except
path also returns True (line 383), and the finally clause (line 385)
restores the entry working directory on both. -/
def install_dependencies (cwd : String) (env : DepsEnv) : Bool × String :=
  match depsTryBody env with
  | .ok _ => (true, cwd)
  | .error _ => (true, cwd)

/-! ## C9 / C10 / C7 — Build Dispatcher: build_and_install_package
(src/pypi_installer.py lines 387-434; src/misc/pypi_installer.py
lines 171-223) -/

/-- Install command selected by build dispatch (lines 399-411; identically
src/misc/pypi_installer.py lines 191-211 on the direct-install path):
pyproject.toml first — also when setup.py is present — else setup.py, else
no recognized build system. -/
def build_cmd (exe : String) (hasPyproject hasSetupPy : Bool) :
    Option (List String) :=
  if hasPyproject then
    some [exe, "-m", "pip", "install", ".", "--prefix=/usr/local", "--root=/"]
  else if hasSetupPy then
    some [exe, "setup.py", "install", "--prefix=/usr/local", "--root=/"]
  else none

/-- Error logs emitted when the selected install command fails
(src/pypi_installer.py lines 417-419): both captured streams appear. -/
def directInstallFailLogs (r : Subproc) : List String :=
  ["Installation failed: " ++ r.stderrStr,
   "Installation stdout: " ++ r.stdoutStr]

/-- src/misc/pypi_installer.py line 215: captured stderr appears. -/
def miscDirectInstallFailLogs (r : Subproc) : List String :=
  ["Install failed: " ++ r.stderrStr]

/-- Does some emitted log message contain the given text? -/
def logsMention (logs : List String) (s : String) : Bool :=
  logs.any (fun m => strContains m s)

structure InstallEnv where
  /-- `os.chdir(source_dir)` at line 393 succeeds. -/
  chdirOk : Bool
  depsEnv : DepsEnv
  /-- The subprocess invocation itself raises (distinct from a non-zero
  exit). -/
  installRaises : Bool
  /-- Captured result of the selected install command. -/
  installRes : Subproc

structure BipOut where
  result : Bool
  finalCwd : String
  errorLogs : List String
deriving DecidableEq, Repr

/-- The try body of build_and_install_package (lines 392-428): chdir into
the source tree, run install_dependencies (its result is not consulted),
select the install command by build-system detection, run it. -/
def bipTryBody (exe srcDir : String) (env : InstallEnv) :
    Except String (Bool × List String) :=
  if env.chdirOk = false then .error "chdir raised"
  else
    let _deps := install_dependencies srcDir env.depsEnv
    match build_cmd exe env.depsEnv.hasPyproject env.depsEnv.hasSetupPy with
    | none =>
      .ok (false, ["No recognized build system found (setup.py or pyproject.toml)"])
    | some _cmd =>
      if env.installRaises then .error "subprocess raised"
      else if env.installRes.returncode = 0 then .ok (true, [])
      else .ok (false, directInstallFailLogs env.installRes)

/-- build_and_install_package (src/pypi_installer.py lines 387-434): the
try body runs; any raised exception is caught and reported as False (lines
430-432); the finally clause (line 434) restores the entry working
directory on every path. -/
def build_and_install_package (exe srcDir cwd : String) (env : InstallEnv) :
    BipOut :=
  match bipTryBody exe srcDir env with
  | .ok (b, logs) => { result := b, finalCwd := cwd, errorLogs := logs }
  | .error e =>
    { result := false, finalCwd := cwd, errorLogs := ["Installation error: " ++ e] }

/-! ## C7 — native-package strategy diagnostics
(src/misc/pypi_installer.py lines 137-169) -/

/-- Error log of build_rpm_package when rpmbuild exits non-zero (lines
147-150): a fixed message; the captured output of the rpmbuild process is
discarded. -/
def rpmBuildFailLogs (_r : Subproc) : List String := ["RPM build failed"]

/-- Error log of install_rpm_package when dnf exits non-zero (lines
159-169): likewise a fixed message without the captured output. -/
def rpmInstallFailLogs (_r : Subproc) : List String := ["RPM install failed"]

structure RpmEnv where
  tarballOk : Bool
  specOk : Bool
  rpmbuildRes : Subproc
  rpmFound : Bool
deriving DecidableEq, Repr

/-- build_rpm_package (lines 137-157): the produced rpm path, if any, and
the error-level log messages emitted. -/
def build_rpm_package (env : RpmEnv) : Option String × List String :=
  if env.tarballOk = false then (none, ["Failed tarball creation"])
  else if env.specOk = false then (none, ["Spec generation failed"])
  else if env.rpmbuildRes.returncode = 0 then
    if env.rpmFound then (some "built.rpm", [])
    else (none, ["RPM not found after build"])
  else (none, rpmBuildFailLogs env.rpmbuildRes)

/-! ## C1 — single-package run outcomes and exit codes
(src/pypi_installer.py lines 441-481, 570-608, 610-667) -/

/-- Methods defined by class FedoraPyPIGitInstaller in src/pypi_installer.py.
As written the file is not parseable Python — lines 459-460 repeat the
header of install_single_package and line 459 has no body — so this list is
the charitable reading with the duplicate removed. `build_package`, called
by install_git_package on line 455, is not among them. -/
def installerMethods : List String :=
  ["check_dependencies", "get_package_info", "parse_git_url",
   "clone_git_repository", "get_package_name_from_source", "download_source",
   "extract_source", "install_dependencies", "build_and_install_package",
   "install_package", "install_git_package", "install_single_package",
   "parse_source_line", "install_from_file", "cleanup", "run"]

/-- A Python return value of interest: None or a bool. -/
inductive PyVal
  | pyNone
  | pyBool (b : Bool)
deriving DecidableEq, Repr

def PyVal.truthy : PyVal → Bool
  | .pyNone => false
  | .pyBool b => b

structure GitEnv where
  /-- clone plus any tag/commit checkout succeed, so clone_git_repository
  returns a directory. -/
  cloneOk : Bool
  /-- What the build/install step would report for the cloned tree. -/
  buildOk : Bool
deriving DecidableEq, Repr

/-- install_git_package (lines 441-458): on clone failure returns False;
then looks up `self.build_package`, which the class does not define, raising
AttributeError; had the lookup succeeded, a build failure would return False
and a build success would fall off the end of the function, returning
None. -/
def install_git_package (env : GitEnv) : Except PyExc PyVal :=
  if env.cloneOk = false then .ok (.pyBool false)
  else if (installerMethods.contains "build_package") = false then
    .error (.exception "AttributeError: build_package")
  else if env.buildOk = false then .ok (.pyBool false)
  else .ok .pyNone

structure PypiEnv where
  infoOk : Bool
  downloadOk : Bool
  extractOk : Bool
  buildOk : Bool
deriving DecidableEq, Repr

/-- install_single_package (lines 460-481): fetch info, download source,
extract, then build and install; False at the first failing step. -/
def install_single_package (env : PypiEnv) : Bool :=
  if env.infoOk = false then false
  else if env.downloadOk = false then false
  else if env.extractOk = false then false
  else env.buildOk

/-- run, git branch (lines 570-608 with args.git_url set): failure of the
dependency check or a falsy install_git_package result yields False; a
raised exception propagates (the finally clause cleans up and reraises). -/
def run_git (depsOk : Bool) (env : GitEnv) : Except PyExc Bool :=
  if depsOk = false then .ok false
  else
    match install_git_package env with
    | .error e => .error e
    | .ok v => if v.truthy then .ok true else .ok false

/-- run, registry branch (args.package set). -/
def run_pypi (depsOk : Bool) (env : PypiEnv) : Except PyExc Bool :=
  if depsOk = false then .ok false
  else if install_single_package env then .ok true else .ok false

/-- Process exit code from the outcome of run: main line 667 is
`sys.exit(0 if success else 1)`; an unhandled exception ends the
interpreter with exit code 1; a propagated SystemExit carries its code. -/
def exitCodeOf : Except PyExc Bool → Nat
  | .ok true => 0
  | .ok false => 1
  | .error (.systemExit c) => c
  | .error _ => 1

/-! ## C6 — workspace lifecycle (src/pypi_installer.py lines 565-608) -/

structure ProcState where
  tempDir : Option String
  dirExists : Bool
deriving DecidableEq, Repr

/-- cleanup (lines 565-568): recursively remove the workspace when it is
set and present. -/
def workspace_cleanup (s : ProcState) : ProcState :=
  match s.tempDir with
  | some _ => if s.dirExists then { s with dirExists := false } else s
  | none => s

/-- run workspace lifecycle (lines 570-608; the same try/finally shape
appears in src/misc/pypi_installer.py lines 276-286 and
src/misc/fedora_src_installer.py lines 68-90): the workspace is created,
then the dependency check and the dispatched work run inside the try — each
may return a bool or raise a plain exception, a SystemExit from sys.exit,
or a KeyboardInterrupt from an interrupt signal — and cleanup runs in the
finally block on every outcome, which is then propagated unchanged. -/
def run_lifecycle (depsStep bodyStep : Except PyExc Bool) :
    Except PyExc Bool × ProcState :=
  let created : ProcState := { tempDir := some "pypi_installer_w", dirExists := true }
  let outcome : Except PyExc Bool :=
    match depsStep with
    | .error e => .error e
    | .ok false => .ok false
    | .ok true => bodyStep
  (outcome, workspace_cleanup created)

/-! ## Theorems settling the claims -/

/-- C1: the claim says a single-package Git invocation exits 0 whenever
clone, checkout and build/install succeed. Evaluating the code at such an
input: install_git_package looks up the undefined method build_package and
raises AttributeError, run propagates it, and the process exit code is 1,
never 0 — while the registry path does exit 0 on full success. -/
theorem C1_git_success_still_exits_nonzero :
    install_git_package ⟨true, true⟩ =
      .error (.exception "AttributeError: build_package") ∧
    exitCodeOf (run_git true ⟨true, true⟩) = 1 ∧
    exitCodeOf (run_pypi true ⟨true, true, true, true⟩) = 0 := by
  refine ⟨rfl, rfl, rfl⟩

/-- C5: install_dependencies reports success to its caller on every path:
individual requirement-file or dependency install failures only accumulate
in the logged-failure count, and even a raised exception inside the body is
caught, so the returned bool is always True. -/
theorem C5_install_dependencies_never_fails (cwd : String) (env : DepsEnv) :
    (install_dependencies cwd env).1 = true := by
  unfold install_dependencies
  cases depsTryBody env <;> rfl

/-- C6: for every outcome of the work inside run — normal completion with
either bool, an early sys.exit (SystemExit), an interrupt signal
(KeyboardInterrupt), or any other raised exception — the cleanup in the
finally block deletes the per-run workspace before the process exits, and
the outcome itself is propagated unchanged. -/
theorem C6_workspace_deleted_on_every_exit
    (depsStep bodyStep : Except PyExc Bool) :
    ((run_lifecycle depsStep bodyStep).2).dirExists = false ∧
    (run_lifecycle (.ok true) (.error (.systemExit 3))).1 =
      .error (.systemExit 3) ∧
    (run_lifecycle (.ok true) (.error .keyboardInterrupt)).1 =
      .error .keyboardInterrupt ∧
    (run_lifecycle (.ok true) (.ok true)).1 = .ok true := by
  refine ⟨?_, rfl, rfl, rfl⟩
  rfl

/-- C10: install_dependencies and build_and_install_package return with the
working directory that was current on entry, on success, reported failure,
and caught-exception paths alike: the restoration happens in their finally
clauses, which run on every path. -/
theorem C10_cwd_restored (cwd exe srcDir : String) (denv : DepsEnv)
    (env : InstallEnv) :
    (install_dependencies cwd denv).2 = cwd ∧
    (build_and_install_package exe srcDir cwd env).finalCwd = cwd := by
  constructor
  · unfold install_dependencies
    cases depsTryBody denv <;> rfl
  · unfold build_and_install_package
    rcases bipTryBody exe srcDir env with e | ⟨b, logs⟩ <;> rfl

/-- C9: build dispatch performs deterministic first-match-wins detection:
a present pyproject.toml selects the modern pip command even when setup.py
is also present; otherwise a present setup.py selects the legacy command;
otherwise the dispatch reports no recognized build system and fails — the
same shared selection in both installer variants' direct-install path. -/
theorem C9_dialect_detection (exe srcDir cwd : String) (p s : Bool)
    (env : InstallEnv) :
    (p = true → build_cmd exe p s =
      some [exe, "-m", "pip", "install", ".", "--prefix=/usr/local", "--root=/"]) ∧
    (p = false → s = true → build_cmd exe p s =
      some [exe, "setup.py", "install", "--prefix=/usr/local", "--root=/"]) ∧
    (p = false → s = false → build_cmd exe p s = none) ∧
    (env.chdirOk = true → env.depsEnv.hasPyproject = false →
      env.depsEnv.hasSetupPy = false →
      (build_and_install_package exe srcDir cwd env).result = false ∧
      (build_and_install_package exe srcDir cwd env).errorLogs =
        ["No recognized build system found (setup.py or pyproject.toml)"]) := by
  refine ⟨?_, ?_, ?_, ?_⟩
  · intro hp; simp [build_cmd, hp]
  · intro hp hs; simp [build_cmd, hp, hs]
  · intro hp hs; simp [build_cmd, hp, hs]
  · intro hc hp hs
    unfold build_and_install_package bipTryBody
    simp [hc, hp, hs, build_cmd]

/-- C9 witness: both-present trees select the modern command, and a tree
with neither manifest makes the dispatch fail. -/
theorem C9_dialect_detection_witness :
    build_cmd "python3" true true =
      some ["python3", "-m", "pip", "install", ".", "--prefix=/usr/local", "--root=/"] ∧
    (build_and_install_package "python3" "/src" "/home"
      ⟨true, ⟨true, fun _ => false, fun _ => false, false, false, false, [],
        false, [], fun _ => false⟩, false, ⟨0, "", ""⟩⟩).result = false := by
  constructor
  · exact (C9_dialect_detection "python3" "/src" "/home" true true
      ⟨true, ⟨true, fun _ => false, fun _ => false, false, false, false, [],
        false, [], fun _ => false⟩, false, ⟨0, "", ""⟩⟩).1 rfl
  · exact ((C9_dialect_detection "python3" "/src" "/home" false false
      ⟨true, ⟨true, fun _ => false, fun _ => false, false, false, false, [],
        false, [], fun _ => false⟩, false, ⟨0, "", ""⟩⟩).2.2.2 rfl rfl rfl).1

/-- The Python `max(..., key=...)` fold returns an element of the list. -/
theorem v2_pick_mem (d : Entry) (ds : List Entry) : v2_pick d ds ∈ d :: ds := by
  induction ds generalizing d with
  | nil => simp [v2_pick]
  | cons e es ih =>
    have step : v2_pick d (e :: es) =
        v2_pick (if d.name.length < e.name.length then e else d) es := rfl
    rw [step]
    rcases List.mem_cons.mp (ih (if d.name.length < e.name.length then e else d))
      with h1 | h1
    · rw [h1]
      by_cases hc : d.name.length < e.name.length <;> simp [hc]
    · simp [List.mem_cons, h1]

/-- The Python `max(..., key=...)` fold returns an element of maximal key. -/
theorem v2_pick_le (d : Entry) (ds : List Entry) :
    ∀ q ∈ d :: ds, q.name.length ≤ (v2_pick d ds).name.length := by
  induction ds generalizing d with
  | nil =>
    intro q hq
    rcases List.mem_cons.mp hq with h | h
    · rw [h]; exact Nat.le_refl _
    · cases h
  | cons e es ih =>
    intro q hq
    have step : v2_pick d (e :: es) =
        v2_pick (if d.name.length < e.name.length then e else d) es := rfl
    rw [step]
    have hd : d.name.length ≤
        (if d.name.length < e.name.length then e else d).name.length := by
      by_cases hc : d.name.length < e.name.length <;> simp [hc]
      exact Nat.le_of_lt hc
    have he : e.name.length ≤
        (if d.name.length < e.name.length then e else d).name.length := by
      by_cases hc : d.name.length < e.name.length <;> simp [hc]
      exact Nat.le_of_not_lt hc
    have hnext := ih (if d.name.length < e.name.length then e else d)
    rcases List.mem_cons.mp hq with h | h
    · rw [h]
      exact Nat.le_trans hd (hnext _ (List.mem_cons_self _ _))
    rcases List.mem_cons.mp h with h2 | h2
    · rw [h2]
      exact Nat.le_trans he (hnext _ (List.mem_cons_self _ _))
    · exact hnext q (List.mem_cons_of_mem _ h2)

/-- C2 counterexample: with exactly one top-level entry that is a regular
file, extract_source resolves to that file rather than to the extraction
root as the claim requires; and with several top-level directories,
install_python_from_source_v2 resolves to the longest-named directory, not
to the extraction root. -/
theorem C2_counterexample :
    resolve_source_root "/w/extracted" [⟨"PKG-INFO", false⟩] =
      "/w/extracted/PKG-INFO" ∧
    "/w/extracted/PKG-INFO" ≠ "/w/extracted" ∧
    v2_resolve "/w/build" [⟨"aa", true⟩, ⟨"bbb", true⟩] = some "/w/build/bbb" ∧
    some "/w/build/bbb" ≠ some "/w/build" := by
  refine ⟨rfl, by decide, rfl, by decide⟩

/-- C2 amended: in extract_source the resolved source root is the single
top-level entry whenever exactly one exists — whether or not it is a
directory — and the extraction root when there are zero or several entries
(agreeing with the spec wording exactly when a single entry is a
directory); in install_python_from_source_v2 resolution instead picks a
longest-named top-level directory and fails only when no directory
exists. -/
theorem C2_source_root_resolution (d : String) (es : List Entry) :
    (∀ e, es = [e] → resolve_source_root d es = d ++ "/" ++ e.name) ∧
    (es.length ≠ 1 → resolve_source_root d es = d) ∧
    (∀ e, es = [e] → e.isDir = true →
      resolve_source_root d es = resolve_source_root_specWords d es) ∧
    (es.filter (fun e => e.isDir) = [] → v2_resolve d es = none) ∧
    (∀ x xs, es.filter (fun e => e.isDir) = x :: xs →
      ∃ p, p ∈ x :: xs ∧ (∀ q ∈ x :: xs, q.name.length ≤ p.name.length) ∧
        v2_resolve d es = some (d ++ "/" ++ p.name)) := by
  refine ⟨?_, ?_, ?_, ?_, ?_⟩
  · intro e he; rw [he]; rfl
  · intro hlen
    match es with
    | [] => rfl
    | [e] => exact absurd rfl hlen
    | a :: b :: t => rfl
  · intro e he hdir
    rw [he]
    simp [resolve_source_root, resolve_source_root_specWords, hdir]
  · intro hf
    unfold v2_resolve
    rw [hf]
  · intro x xs hf
    refine ⟨v2_pick x xs, v2_pick_mem x xs, v2_pick_le x xs, ?_⟩
    unfold v2_resolve
    rw [hf]

/-- C2 witness: a single wrapper directory collapses to that directory, and
two top-level entries resolve to the extraction root. -/
theorem C2_source_root_resolution_witness :
    resolve_source_root "/w" [⟨"pkg-1.0", true⟩] = "/w" ++ "/" ++ "pkg-1.0" ∧
    resolve_source_root "/w" [⟨"a", true⟩, ⟨"b", false⟩] = "/w" := by
  constructor
  · exact (C2_source_root_resolution "/w" [⟨"pkg-1.0", true⟩]).1
      ⟨"pkg-1.0", true⟩ rfl
  · exact (C2_source_root_resolution "/w" [⟨"a", true⟩, ⟨"b", false⟩]).2.1
      (by decide)

/-- C7 counterexample: when rpmbuild exits non-zero with captured output,
the native-package strategy reports the failure with only the fixed message
"RPM build failed": neither captured stream appears in any emitted
diagnostic; the rpm install failure message likewise omits the captured
output. -/
theorem C7_counterexample :
    (build_rpm_package ⟨true, true, ⟨1, "out7", "boom42"⟩, true⟩).2 =
      ["RPM build failed"] ∧
    logsMention (build_rpm_package ⟨true, true, ⟨1, "out7", "boom42"⟩, true⟩).2
      "boom42" = false ∧
    logsMention (build_rpm_package ⟨true, true, ⟨1, "out7", "boom42"⟩, true⟩).2
      "out7" = false ∧
    logsMention (rpmInstallFailLogs ⟨1, "", "dnf-err"⟩) "dnf-err" = false := by
  refine ⟨rfl, by decide, by decide, by decide⟩

/-- C7 amended: a failing direct-host-install subprocess is reported with
its captured stderr in both installer variants (the main variant also logs
the captured stdout), while failing rpm build and rpm install subprocesses
are reported with fixed messages that omit the captured output; no failure
is reported silently — every failing path emits a diagnostic. -/
theorem C7_failure_diagnostics (r : Subproc) (denv : DepsEnv)
    (srcDir cwd : String) (h : r.returncode ≠ 0) :
    logsMention (directInstallFailLogs r) r.stderrStr = true ∧
    logsMention (directInstallFailLogs r) r.stdoutStr = true ∧
    logsMention (miscDirectInstallFailLogs r) r.stderrStr = true ∧
    (build_rpm_package ⟨true, true, r, true⟩).2 = ["RPM build failed"] ∧
    (denv.hasPyproject = true →
      (build_and_install_package "python3" srcDir cwd
        ⟨true, denv, false, r⟩).errorLogs = directInstallFailLogs r) ∧
    (build_rpm_package ⟨true, true, r, true⟩).2 ≠ [] := by
  refine ⟨?_, ?_, ?_, ?_, ?_, ?_⟩
  · simp [logsMention, directInstallFailLogs, strContains_append_right]
  · simp [logsMention, directInstallFailLogs, strContains_append_right]
  · simp [logsMention, miscDirectInstallFailLogs, strContains_append_right]
  · simp [build_rpm_package, h, rpmBuildFailLogs]
  · intro hp
    unfold build_and_install_package bipTryBody
    simp [build_cmd, hp, h]
  · simp [build_rpm_package, h, rpmBuildFailLogs]

/-- C7 witness: a concrete failing install command with stderr text e. -/
theorem C7_failure_diagnostics_witness :
    logsMention (directInstallFailLogs ⟨1, "o", "e"⟩) "e" = true ∧
    (build_and_install_package "python3" "/src" "/home"
      ⟨true, ⟨true, fun _ => false, fun _ => false, true, false, false, [],
        false, [], fun _ => false⟩, false, ⟨1, "o", "e"⟩⟩).errorLogs =
      directInstallFailLogs ⟨1, "o", "e"⟩ := by
  constructor
  · exact (C7_failure_diagnostics ⟨1, "o", "e"⟩
      ⟨true, fun _ => false, fun _ => false, true, false, false, [],
        false, [], fun _ => false⟩ "/src" "/home" (by decide)).1
  · exact (C7_failure_diagnostics ⟨1, "o", "e"⟩
      ⟨true, fun _ => false, fun _ => false, true, false, false, [],
        false, [], fun _ => false⟩ "/src" "/home" (by decide)).2.2.2.2.1 rfl

/-- C8: download_source selects the URL and filename of the first artifact
whose packaging type is a source distribution; when no sdist exists it
selects the first bdist_wheel/bdist_egg artifact; and it returns no
artifact exactly when neither kind occurs in the metadata response. -/
theorem C8_distribution_selection (urls pre post : List UrlInfo) (u : UrlInfo) :
    (urls = pre ++ u :: post → isSdistInfo u = true →
      (∀ v ∈ pre, isSdistInfo v = false) →
      download_source_select urls = some (u.url, u.filename)) ∧
    ((∀ v ∈ urls, isSdistInfo v = false) →
      urls = pre ++ u :: post → isBdistInfo u = true →
      (∀ v ∈ pre, isBdistInfo v = false) →
      download_source_select urls = some (u.url, u.filename)) ∧
    (download_source_select urls = none ↔
      ∀ v ∈ urls, isSdistInfo v = false ∧ isBdistInfo v = false) := by
  refine ⟨?_, ?_, ?_⟩
  · intro he hu hpre
    subst he
    have hpre0 : pre.find? isSdistInfo = none :=
      List.find?_eq_none.mpr (fun x hx => by simp [hpre x hx])
    simp [download_source_select, List.find?_append, hpre0,
      List.find?_cons_of_pos _ hu]
  · intro hall he hu hpre
    have hs : urls.find? isSdistInfo = none :=
      List.find?_eq_none.mpr (fun x hx => by simp [hall x hx])
    subst he
    have hpre0 : pre.find? isBdistInfo = none :=
      List.find?_eq_none.mpr (fun x hx => by simp [hpre x hx])
    simp [download_source_select, hs, List.find?_append, hpre0,
      List.find?_cons_of_pos _ hu]
  · constructor
    · intro hnone v hv
      rcases h1 : urls.find? isSdistInfo with _ | u1
      · rcases h2 : urls.find? isBdistInfo with _ | u2
        · exact ⟨by simpa using List.find?_eq_none.mp h1 v hv,
            by simpa using List.find?_eq_none.mp h2 v hv⟩
        · simp [download_source_select, h1, h2] at hnone
      · simp [download_source_select, h1] at hnone
    · intro hall
      have h1 : urls.find? isSdistInfo = none :=
        List.find?_eq_none.mpr (fun v hv => by simp [(hall v hv).1])
      have h2 : urls.find? isBdistInfo = none :=
        List.find?_eq_none.mpr (fun v hv => by simp [(hall v hv).2])
      simp [download_source_select, h1, h2]

/-- C8 witness: a response listing a wheel before an sdist still selects
the sdist. -/
theorem C8_distribution_selection_witness :
    download_source_select
      [⟨some "bdist_wheel", "u0", "f0"⟩, ⟨some "sdist", "u1", "f1"⟩] =
      some ("u1", "f1") := by
  exact (C8_distribution_selection
    [⟨some "bdist_wheel", "u0", "f0"⟩, ⟨some "sdist", "u1", "f1"⟩]
    [⟨some "bdist_wheel", "u0", "f0"⟩] [] ⟨some "sdist", "u1", "f1"⟩).1
    rfl (by decide) (by decide)

/-- C3 counterexample: a manifest line carrying both a branch and a tag is
parsed into a request with two of branch/tag/commit set — no construction
error occurs — and the batch driver then starts a git clone for it. -/
theorem C3_counterexample :
    parse_source_line "https://github.com/x/y.git --branch=main --tag=v1.0" =
      .git "https://github.com/x/y.git" (some "main") (some "v1.0") none ∧
    gitRefCount (some "main") (some "v1.0") none = 2 ∧
    first_clone_cmd "/tmp/pypi_installer_w"
        (parse_source_line
          "https://github.com/x/y.git --branch=main --tag=v1.0") =
      some ["git", "clone", "https://github.com/x/y.git",
        "/tmp/pypi_installer_w/y", "--branch", "main"] := by
  refine ⟨by decide, by decide, by decide⟩

/-- C3 amended: a request constructed from CLI flags with more than one of
branch/tag/commit set is rejected by parser.error before any network or
clone activity; a request parsed from a batch-manifest line is not
validated — parse_source_line accepts any combination of refs and the batch
driver always issues the clone command for a git entry. -/
theorem C3_ref_exclusivity (tempDir url : String) (v b t c : Option String)
    (h : 1 < gitRefCount b t c) :
    cli_git_main tempDir url v b t c = .usageError ∧
    first_clone_cmd tempDir (.git url b t c) =
      some (gitCloneCmd url (tempDir ++ "/" ++ repoNameOf url) b) := by
  constructor
  · unfold cli_git_main
    by_cases hv : pyTruthy v = true <;> simp [hv, h]
  · rfl

/-- C3 witness: branch and tag both set on the CLI is a usage error. -/
theorem C3_ref_exclusivity_witness :
    cli_git_main "/tmp/w" "https://github.com/x/y.git" none (some "m")
      (some "t") none = .usageError := by
  exact (C3_ref_exclusivity "/tmp/w" "https://github.com/x/y.git" none
    (some "m") (some "t") none (by decide)).1

/-- parse_source_line yields skip exactly for blank and comment lines. -/
theorem parse_skip_iff (l : String) :
    parse_source_line l = .skip ↔
      (strIsEmpty (strTrim l) || strStartsWith (strTrim l) "#") = true := by
  by_cases hb : (strIsEmpty (strTrim l) || strStartsWith (strTrim l) "#") = true
  · simp [parse_source_line, hb]
  · simp [parse_source_line, hb]
    split
    · split <;> simp
    · split <;> simp

/-- Reference semantics of the per-line loop of install_from_file: the
dispatched line numbers and the error logs, computed directly from the
numbered lines. -/
theorem batch_foldl_spec (proc : Nat → ParsedLine → Except String Bool)
    (ps : List (Nat × String)) (acc : BatchResult) :
    ((ps.foldl (batchStep proc) acc).dispatched =
      acc.dispatched ++
        (ps.filter (fun p => parse_source_line p.2 ≠ ParsedLine.skip)).map
          (fun p => p.1)) ∧
    ((ps.foldl (batchStep proc) acc).errorLogs =
      acc.errorLogs ++ ps.filterMap (fun p =>
        match parse_source_line p.2 with
        | .skip => none
        | e =>
          match proc p.1 e with
          | .ok _ => none
          | .error ex => some (p.1, ex))) := by
  induction ps generalizing acc with
  | nil => simp
  | cons p t ih =>
    rcases hp : parse_source_line p.2 with _ | ⟨pkg, ver⟩ | ⟨u, b, tg, c⟩
    · simp [List.foldl_cons, batchStep, hp, ih]
    · rcases hr : proc p.1 (.pypi pkg ver) with ex | bres <;>
        simp [List.foldl_cons, batchStep, hp, hr, ih]
    · rcases hr : proc p.1 (.git u b tg c) with ex | bres <;>
        simp [List.foldl_cons, batchStep, hp, hr, ih]

theorem numberFrom_countP (pred : String → Bool) (n : Nat)
    (lines : List String) :
    (numberFrom n lines).countP (fun p => pred p.2) = lines.countP pred := by
  induction lines generalizing n with
  | nil => rfl
  | cons l ls ih => simp [numberFrom, List.countP_cons, ih]

/-- C4 amended: the batch driver dispatches exactly the non-blank,
non-comment lines in order, regardless of per-entry outcomes — no entry's
returned failure or raised exception aborts the loop or escapes it; a
raised exception is logged at error level together with its originating
line number; but an entry whose installer merely returns failure produces
no error-level driver log (its line number appears only in the
pre-dispatch info message). -/
theorem C4_batch_isolation (lines : List String)
    (proc : Nat → ParsedLine → Except String Bool) :
    ((install_from_file lines proc).dispatched =
      ((numberFrom 1 lines).filter
        (fun p => parse_source_line p.2 ≠ ParsedLine.skip)).map
          (fun p => p.1)) ∧
    ((install_from_file lines proc).errorLogs =
      (numberFrom 1 lines).filterMap (fun p =>
        match parse_source_line p.2 with
        | .skip => none
        | e =>
          match proc p.1 e with
          | .ok _ => none
          | .error ex => some (p.1, ex))) ∧
    ((install_from_file lines proc).dispatched.length =
      lines.countP (fun l =>
        !(strIsEmpty (strTrim l) || strStartsWith (strTrim l) "#"))) := by
  have h := batch_foldl_spec proc (numberFrom 1 lines) ⟨[], [], []⟩
  refine ⟨?_, ?_, ?_⟩
  · simpa [install_from_file] using h.1
  · simpa [install_from_file] using h.2
  · have h1 : (install_from_file lines proc).dispatched.length =
        ((numberFrom 1 lines).filter
          (fun p => parse_source_line p.2 ≠ ParsedLine.skip)).length := by
      rw [show (install_from_file lines proc).dispatched = _ from by
        simpa [install_from_file] using h.1]
      simp
    rw [h1, ← List.countP_eq_length_filter]
    rw [numberFrom_countP (fun s => decide (parse_source_line s ≠ ParsedLine.skip)) 1 lines]
    refine List.countP_congr ?_
    intro x _
    simp only [decide_eq_true_eq, ne_eq, Bool.not_eq_true']
    rw [parse_skip_iff x]
    constructor
    · intro hx
      exact Bool.not_eq_true _ ▸ (by simpa using hx)
    · intro hx
      simp [hx]

/-- C4 counterexample: an entry whose processing returns failure rather
than raising produces no error-level driver log at all — in particular
none carrying its line number — though it is dispatched and the batch
continues normally. -/
theorem C4_counterexample :
    (install_from_file ["requests==2.31.0"]
      (fun _ _ => .ok false)).errorLogs = [] ∧
    (install_from_file ["requests==2.31.0"]
      (fun _ _ => .ok false)).dispatched = [1] := by
  refine ⟨rfl, rfl⟩

end FedoraSystem
